import Mathlib

/-!
Verification of the session state machine and route-guard protocol of the
client-side session authenticator (`src/App.tsx`).

The embedding models the runtime values the TypeScript code manipulates:

* `Json` is the domain of JavaScript values that can result from
  `JSON.parse` (and of the `user` field at runtime, whose TS type
  `User | null` erases to an arbitrary parsed value when the value comes
  from the store).  The JS `null` is the constructor `Json.jnull`.
* `StoreContent` models the string stored under the `auth_user` key in
  `localStorage`, abstracted at the level of the platform contract for
  `JSON.parse` / `JSON.stringify`: `jsonText v` is a string that
  `JSON.parse` turns into the value `v` (and `JSON.stringify v` produces
  such a string; every such string is non-empty, since `JSON.parse` rejects
  the empty string), `emptyText` is the stored empty string (falsy in JS,
  so the code's `if (savedUser)` test treats it like an absent key),
  `corrupt raw` is a non-empty string on which `JSON.parse` throws,
  `absent` is the missing key.
* The nondeterministic parts of `login` (the `Math.random()`-based id and
  whether the try block throws — in the source the one reachable throw
  site after `LOGIN_START` is the `localStorage.setItem` store write,
  e.g. on exceeded quota) are explicit parameters.
-/

/-- JavaScript values producible by `JSON.parse`; `jnull` is the JS `null`. -/
inductive Json where
  | jnull : Json
  | jbool : Bool → Json
  | jnum : Int → Json
  | jstr : String → Json
  | jarr : List Json → Json
  | jobj : List (String × Json) → Json

/-- Session State, from the `AuthState` shape used by `useReducer` in
`src/App.tsx`.  The `user` field holds the runtime value; the JS `null`
of an absent user is `Json.jnull`. -/
structure AuthState where
  user : Json
  isAuthenticated : Bool
  isLoading : Bool
  error : Option String

/-- The action union dispatched into the reducer (`AuthAction`). -/
inductive AuthAction where
  | loginStart : AuthAction
  | loginSuccess : Json → AuthAction
  | loginFailure : String → AuthAction
  | logout : AuthAction

/-- The reducer `authReducer` of `src/App.tsx`, case by case:
`LOGIN_START`, `LOGIN_SUCCESS`, `LOGIN_FAILURE`, `LOGOUT`. -/
def authReducer (state : AuthState) (action : AuthAction) : AuthState :=
  match action with
  | AuthAction.loginStart =>
      { state with isLoading := true, error := none }
  | AuthAction.loginSuccess payload =>
      { state with isLoading := false, isAuthenticated := true, user := payload }
  | AuthAction.loginFailure payload =>
      { state with isLoading := false, error := some payload }
  | AuthAction.logout =>
      { state with isAuthenticated := false, user := Json.jnull }

/-- The initial reducer state passed to `useReducer` in `AuthProvider`. -/
def initialState : AuthState :=
  { user := Json.jnull, isAuthenticated := false, isLoading := true, error := none }

/-- Content of `localStorage` under the `auth_user` key, at the level of
the `JSON.parse` / `JSON.stringify` platform contract (see header):
`jsonText v` is a (necessarily non-empty) string parsing to `v`,
`emptyText` is the stored empty string (non-JSON and falsy), `corrupt raw`
is a non-empty string on which `JSON.parse` throws. -/
inductive StoreContent where
  | absent : StoreContent
  | emptyText : StoreContent
  | jsonText : Json → StoreContent
  | corrupt : String → StoreContent

/-- Result of one Controller operation: the resulting Session State, the
resulting store content, and the list of actions dispatched in order. -/
structure ControllerResult where
  state : AuthState
  store : StoreContent
  dispatched : List AuthAction

/-- The bootstrap effect of `AuthProvider` (`useEffect` with empty deps):
reads `localStorage.getItem` of the `auth_user` key and tests the result
with `if (savedUser)` — a JS truthiness check, so both the missing key and
the stored empty string take the else branch, which dispatches `LOGOUT`
without touching the store.  A truthy (non-empty) string is parsed:
`LOGIN_SUCCESS` is dispatched with the `JSON.parse` result, and when the
parse throws, the catch removes the item and dispatches `LOGOUT`. -/
def bootstrap (s : AuthState) (store : StoreContent) : ControllerResult :=
  match store with
  | StoreContent.absent =>
      { state := authReducer s AuthAction.logout
        store := StoreContent.absent
        dispatched := [AuthAction.logout] }
  | StoreContent.emptyText =>
      { state := authReducer s AuthAction.logout
        store := StoreContent.emptyText
        dispatched := [AuthAction.logout] }
  | StoreContent.jsonText v =>
      { state := authReducer s (AuthAction.loginSuccess v)
        store := StoreContent.jsonText v
        dispatched := [AuthAction.loginSuccess v] }
  | StoreContent.corrupt _ =>
      { state := authReducer s AuthAction.logout
        store := StoreContent.absent
        dispatched := [AuthAction.logout] }

/-- The avatar URL built by `login`:
`https://api.dicebear.com/7.x/avataaars/svg?seed=` followed by the name. -/
def avatarUrl (name : String) : String :=
  "https://api.dicebear.com/7.x/avataaars/svg?seed=" ++ name

/-- The identity record constructed inside `login`; `id` is the
`Math.random().toString(36).substr(2, 9)` string, passed as a parameter. -/
def mkUser (id email name : String) : Json :=
  Json.jobj
    [ ("id", Json.jstr id)
    , ("email", Json.jstr email)
    , ("name", Json.jstr name)
    , ("avatar", Json.jstr (avatarUrl name)) ]

/-- The message of the `LOGIN_FAILURE` dispatch in the catch branch of
`login`. -/
def failMsg : String := "Authentication failed. Please try again."

/-- One complete `login(email, name)` call from `src/App.tsx`, with the
outcome of the try block made explicit in `tryThrows`: dispatch
`LOGIN_START`; then, if the try block throws, the catch branch dispatches
`LOGIN_FAILURE` with `failMsg` and the store is untouched; otherwise the
identity is built, written to the store with `localStorage.setItem` of
`JSON.stringify`, and `LOGIN_SUCCESS` is dispatched.  In the source the
awaited `new Promise(resolve => setTimeout(resolve, 800))` always resolves
and the identity construction is total, so the one reachable throw site is
the `localStorage.setItem` store write (e.g. QuotaExceededError), which
throws before writing anything — hence the untouched store in the catch
case. -/
def loginAttempt (tryThrows : Bool) (id email name : String)
    (s : AuthState) (store : StoreContent) : ControllerResult :=
  let s1 := authReducer s AuthAction.loginStart
  if tryThrows then
    { state := authReducer s1 (AuthAction.loginFailure failMsg)
      store := store
      dispatched := [AuthAction.loginStart, AuthAction.loginFailure failMsg] }
  else
    let u := mkUser id email name
    { state := authReducer s1 (AuthAction.loginSuccess u)
      store := StoreContent.jsonText u
      dispatched := [AuthAction.loginStart, AuthAction.loginSuccess u] }

/-- A completed `login(email, name)` call whose store write succeeded
(the try block did not throw): the success-path execution of
`loginAttempt`, used by the round-trip property, which conditions on the
store write completing. -/
def login (id email name : String) (s : AuthState) (store : StoreContent) :
    ControllerResult :=
  loginAttempt false id email name s store

/-- The `logout` routine: `localStorage.removeItem` of the key, then a
`LOGOUT` dispatch. -/
def logoutOp (s : AuthState) (_ : StoreContent) : ControllerResult :=
  { state := authReducer s AuthAction.logout
    store := StoreContent.absent
    dispatched := [AuthAction.logout] }

/-- Controller operations, for reachability over operation sequences. -/
inductive Op where
  | opBootstrap : Op
  | opLogin : Bool → String → String → String → Op
  | opLogout : Op

/-- Apply one Controller operation to a configuration (Session State
paired with the store content). -/
def applyOp (c : AuthState × StoreContent) : Op → AuthState × StoreContent
  | Op.opBootstrap =>
      ((bootstrap c.1 c.2).state, (bootstrap c.1 c.2).store)
  | Op.opLogin tryThrows id email name =>
      ((loginAttempt tryThrows id email name c.1 c.2).state,
       (loginAttempt tryThrows id email name c.1 c.2).store)
  | Op.opLogout =>
      ((logoutOp c.1 c.2).state, (logoutOp c.1 c.2).store)

/-- Run a sequence of Controller operations. -/
def runOps (c : AuthState × StoreContent) : List Op → AuthState × StoreContent
  | [] => c
  | op :: rest => runOps (applyOp c op) rest

/-- Decision of a route guard, separated from the navigation side effect. -/
inductive RouteDecision where
  | renderWaiting : RouteDecision
  | renderContent : RouteDecision
  | redirectTo : String → RouteDecision

/-- The `ProtectedRoute` guard of `src/App.tsx` as a pure decision
function: while `isLoading` it renders the waiting indicator; otherwise it
renders the children iff `isAuthenticated`, else navigates to `/login`. -/
def protectedRoute (s : AuthState) : RouteDecision :=
  if s.isLoading then RouteDecision.renderWaiting
  else if s.isAuthenticated then RouteDecision.renderContent
  else RouteDecision.redirectTo "/login"

/-- Configuration invariant for the amended authentication invariant:
the Session State satisfies `isAuthenticated` implies a non-null user, and
the store never holds the JSON text `null`. -/
def GoodCfg (c : AuthState × StoreContent) : Prop :=
  (c.1.isAuthenticated = true → c.1.user ≠ Json.jnull) ∧
    c.2 ≠ StoreContent.jsonText Json.jnull

/-- Claim C1 (code evaluated at the failing input): bootstrapping over an
absent record, or over non-JSON content, dispatches only `LOGOUT`, which
leaves `isLoading` at its initial value `true`; `isLoading` is never set
to `false` during such a bootstrap, contradicting the requirement that it
resolve to `false` exactly once regardless of outcome. -/
theorem bootstrap_absent_leaves_isLoading :
    (bootstrap initialState StoreContent.absent).state.isLoading = true ∧
    (bootstrap initialState (StoreContent.corrupt "not json")).state.isLoading = true ∧
    (bootstrap initialState StoreContent.absent).dispatched = [AuthAction.logout] :=
  ⟨rfl, rfl, rfl⟩

/-- Claim C3 counterexample: a stored value that is valid JSON but does not
match the identity record shape (here the JSON string `"garbage"`) is not
purged and not treated as no session: bootstrap dispatches `LOGIN_SUCCESS`
with the parsed value, yielding `isAuthenticated = true` with the store
unchanged, contrary to the claimed `isAuthenticated = false` and empty
store. -/
theorem bootstrap_accepts_schema_invalid_json :
    (bootstrap initialState (StoreContent.jsonText (Json.jstr "garbage"))).state.isAuthenticated
      = true ∧
    (bootstrap initialState (StoreContent.jsonText (Json.jstr "garbage"))).store
      = StoreContent.jsonText (Json.jstr "garbage") :=
  ⟨rfl, rfl⟩

/-- Claim C3 (amended): for every non-empty Store content on which
`JSON.parse` throws, bootstrap yields `isAuthenticated = false`, a null
user, and leaves the Store empty: the corrupt record is purged.  The
stored empty string — also non-JSON, but falsy, so the `if (savedUser)`
truthiness test routes it to the else branch — is likewise treated as no
session (`LOGOUT`, unauthenticated, null user) but is not purged: the
record survives in the Store. -/
theorem bootstrap_corrupt_recovery :
    (∀ raw : String,
      (bootstrap initialState (StoreContent.corrupt raw)).state.isAuthenticated = false ∧
      (bootstrap initialState (StoreContent.corrupt raw)).state.user = Json.jnull ∧
      (bootstrap initialState (StoreContent.corrupt raw)).store = StoreContent.absent) ∧
    ((bootstrap initialState StoreContent.emptyText).state.isAuthenticated = false ∧
      (bootstrap initialState StoreContent.emptyText).state.user = Json.jnull ∧
      (bootstrap initialState StoreContent.emptyText).store = StoreContent.emptyText) :=
  ⟨fun _ => ⟨rfl, rfl, rfl⟩, ⟨rfl, rfl, rfl⟩⟩

/-- Claim C4: the reducer satisfies the transition table field by field:
`LOGIN_START` sets `isLoading` and clears `error` leaving `user` and
`isAuthenticated` unchanged; `LOGIN_SUCCESS` clears `isLoading`, sets
`isAuthenticated` and installs the payload as `user`; `LOGIN_FAILURE`
clears `isLoading` and records the message leaving `isAuthenticated` and
`user` unchanged; `LOGOUT` clears `isAuthenticated` and nulls `user`
leaving `isLoading` and `error` unchanged. -/
theorem authReducer_transition_table :
    ∀ (s : AuthState) (identity : Json) (msg : String),
      ((authReducer s AuthAction.loginStart).isLoading = true ∧
        (authReducer s AuthAction.loginStart).error = none ∧
        (authReducer s AuthAction.loginStart).user = s.user ∧
        (authReducer s AuthAction.loginStart).isAuthenticated = s.isAuthenticated) ∧
      ((authReducer s (AuthAction.loginSuccess identity)).isLoading = false ∧
        (authReducer s (AuthAction.loginSuccess identity)).isAuthenticated = true ∧
        (authReducer s (AuthAction.loginSuccess identity)).user = identity) ∧
      ((authReducer s (AuthAction.loginFailure msg)).isLoading = false ∧
        (authReducer s (AuthAction.loginFailure msg)).error = some msg ∧
        (authReducer s (AuthAction.loginFailure msg)).isAuthenticated = s.isAuthenticated ∧
        (authReducer s (AuthAction.loginFailure msg)).user = s.user) ∧
      ((authReducer s AuthAction.logout).isAuthenticated = false ∧
        (authReducer s AuthAction.logout).user = Json.jnull ∧
        (authReducer s AuthAction.logout).isLoading = s.isLoading ∧
        (authReducer s AuthAction.logout).error = s.error) :=
  fun _ _ _ =>
    ⟨⟨rfl, rfl, rfl, rfl⟩, ⟨rfl, rfl, rfl⟩, ⟨rfl, rfl, rfl, rfl⟩, ⟨rfl, rfl, rfl, rfl⟩⟩

/-- Claim C7: a completed, successful `login(email, name)` (whose store
write therefore happened) followed by a fresh bootstrap from the initial
state over the resulting store yields an authenticated state whose user
record is exactly the one the login produced. -/
theorem login_bootstrap_round_trip :
    ∀ (id email name : String) (s : AuthState) (store : StoreContent),
      (bootstrap initialState (login id email name s store).store).state.isAuthenticated
        = true ∧
      (bootstrap initialState (login id email name s store).store).state.user
        = (login id email name s store).state.user :=
  fun _ _ _ _ _ => ⟨rfl, rfl⟩

/-- Claim C8: the authenticated-only guard renders the waiting indicator
whenever `isLoading` holds, regardless of `isAuthenticated`; once loading
is over it redirects to `/login` when unauthenticated and renders the
protected content when authenticated. -/
theorem protectedRoute_guard_behavior :
    ∀ (auth : Bool) (u : Json) (err : Option String),
      protectedRoute { user := u, isAuthenticated := auth, isLoading := true, error := err }
        = RouteDecision.renderWaiting ∧
      protectedRoute { user := u, isAuthenticated := false, isLoading := false, error := err }
        = RouteDecision.redirectTo "/login" ∧
      protectedRoute { user := u, isAuthenticated := true, isLoading := false, error := err }
        = RouteDecision.renderContent :=
  fun _ _ _ => ⟨rfl, rfl, rfl⟩

/-- Claim C9: when the awaited identity-establishment step rejects, the
catch branch dispatches `LOGIN_START` then `LOGIN_FAILURE` with the fixed
message, the resulting error is that message, and the store is exactly
what it was before the call: no write and no clear on the failure path. -/
theorem login_failure_path :
    ∀ (id email name : String) (s : AuthState) (store : StoreContent),
      (loginAttempt true id email name s store).state.error
        = some "Authentication failed. Please try again." ∧
      (loginAttempt true id email name s store).store = store ∧
      (loginAttempt true id email name s store).dispatched
        = [AuthAction.loginStart,
           AuthAction.loginFailure "Authentication failed. Please try again."] :=
  fun _ _ _ _ _ => ⟨rfl, rfl, rfl⟩

/-- Claim C10 counterexample: the failure branch of `login` is reachable
— the try block contains the `localStorage.setItem` store write, which
can throw (e.g. QuotaExceededError) — and a concrete completed `login`
whose store write throws dispatches `LOGIN_FAILURE` and ends with a
non-null `error`, refuting that every completed login dispatches
`LoginSucceeded` and leaves `error` null. -/
theorem login_write_throw_reaches_catch :
    (loginAttempt true "k3j9v2m1q" "a@b.com" "a" initialState StoreContent.absent).dispatched
      = [AuthAction.loginStart, AuthAction.loginFailure failMsg] ∧
    (loginAttempt true "k3j9v2m1q" "a@b.com" "a" initialState StoreContent.absent).state.error
      = some failMsg :=
  ⟨rfl, rfl⟩

/-- Claim C10 (amended): the awaited timer always resolves and the
identity construction is total, so the catch branch of `login` is
reachable only through the store write throwing; every completed `login`
whose try block does not throw dispatches exactly `LOGIN_START` then
`LOGIN_SUCCESS` with the built identity, never `LOGIN_FAILURE`, and
leaves `error = null`, while a `login` whose store write throws
dispatches `LOGIN_FAILURE` with the fixed message. -/
theorem login_success_unless_write_throws :
    ∀ (id email name : String) (s : AuthState) (store : StoreContent),
      ((loginAttempt false id email name s store).dispatched
        = [AuthAction.loginStart, AuthAction.loginSuccess (mkUser id email name)] ∧
       (loginAttempt false id email name s store).state.error = none) ∧
      (loginAttempt true id email name s store).dispatched
        = [AuthAction.loginStart, AuthAction.loginFailure failMsg] :=
  fun _ _ _ _ _ => ⟨⟨rfl, rfl⟩, rfl⟩

/-- Claim C2 counterexample: with the Store holding the JSON text `null`
(a real possibility; `JSON.parse` succeeds and returns `null`), a single
bootstrap dispatches `LOGIN_SUCCESS` with payload `null`, reaching a state
where `isAuthenticated = true` while `user` is null. -/
theorem bootstrap_null_json_breaks_auth_invariant :
    (runOps (initialState, StoreContent.jsonText Json.jnull) [Op.opBootstrap]).1.isAuthenticated
      = true ∧
    (runOps (initialState, StoreContent.jsonText Json.jnull) [Op.opBootstrap]).1.user
      = Json.jnull :=
  ⟨rfl, rfl⟩

/-- One Controller operation preserves `GoodCfg`: the only way a null user
can enter an authenticated state is a bootstrap over the JSON text `null`,
which `GoodCfg` excludes, and the Controller itself only ever writes
identity objects or clears the store. -/
theorem goodCfg_applyOp (c : AuthState × StoreContent) (op : Op)
    (h : GoodCfg c) : GoodCfg (applyOp c op) := by
  obtain ⟨s, st⟩ := c
  obtain ⟨h1, h2⟩ := h
  cases op with
  | opBootstrap =>
      cases st with
      | absent =>
          exact ⟨fun hA => absurd hA (by simp [applyOp, bootstrap, authReducer]),
            fun hs => StoreContent.noConfusion hs⟩
      | emptyText =>
          exact ⟨fun hA => absurd hA (by simp [applyOp, bootstrap, authReducer]),
            fun hs => StoreContent.noConfusion hs⟩
      | jsonText v =>
          refine ⟨fun _ => ?_, ?_⟩
          · show v ≠ Json.jnull
            intro hv
            exact h2 (by rw [hv])
          · intro hs
            simp only [applyOp, bootstrap] at hs
            exact h2 hs
      | corrupt raw =>
          exact ⟨fun hA => absurd hA (by simp [applyOp, bootstrap, authReducer]),
            fun hs => StoreContent.noConfusion hs⟩
  | opLogin tryThrows id email name =>
      cases tryThrows with
      | false =>
          refine ⟨fun _ => ?_, fun hs => ?_⟩
          · show mkUser id email name ≠ Json.jnull
            simp [mkUser]
          · simp only [applyOp, loginAttempt, if_neg] at hs
            simp [mkUser] at hs
      | true =>
          refine ⟨fun hA => ?_, fun hs => h2 ?_⟩
          · show s.user ≠ Json.jnull
            exact h1 hA
          · simpa [applyOp, loginAttempt] using hs
  | opLogout =>
      exact ⟨fun hA => absurd hA (by simp [applyOp, logoutOp, authReducer]),
        fun hs => StoreContent.noConfusion hs⟩

/-- A whole operation sequence preserves `GoodCfg`. -/
theorem goodCfg_runOps (c : AuthState × StoreContent) (ops : List Op)
    (h : GoodCfg c) : GoodCfg (runOps c ops) := by
  induction ops generalizing c with
  | nil => exact h
  | cons op rest ih => exact ih (applyOp c op) (goodCfg_applyOp c op h)

/-- Claim C2 (amended): for every state reachable from the initial state
by any sequence of bootstrap, login and logout operations, if
`isAuthenticated` is true then `user` is non-null, provided the initial
Store content does not parse to the JSON value `null` (bootstrap over the
JSON text `null` dispatches `LOGIN_SUCCESS` with a null payload and is the
one violation). -/
theorem auth_invariant_of_runs
    (store0 : StoreContent) (ops : List Op)
    (h0 : store0 ≠ StoreContent.jsonText Json.jnull)
    (hA : (runOps (initialState, store0) ops).1.isAuthenticated = true) :
    (runOps (initialState, store0) ops).1.user ≠ Json.jnull :=
  (goodCfg_runOps (initialState, store0) ops
    ⟨fun h => by simp [initialState] at h, h0⟩).1 hA

/-- Witness for the amended C2 invariant at a concrete run: an empty
initial store followed by one successful login reaches an authenticated
state with a non-null user. -/
theorem auth_invariant_of_runs_witness :
    (runOps (initialState, StoreContent.absent)
        [Op.opLogin false "k3j9v2m1q" "a@b.com" "a"]).1.user ≠ Json.jnull :=
  auth_invariant_of_runs StoreContent.absent
    [Op.opLogin false "k3j9v2m1q" "a@b.com" "a"]
    (fun h => StoreContent.noConfusion h) rfl

/-- Claim C5: across any operation, `error` either keeps its previous
value, or is cleared, or was just set by a failed login attempt with the
fixed message — so `error` becomes non-null only through a failed login;
moreover a completed successful login leaves `error = null` (the
`LOGIN_START` it begins with clears any previous error and
`LOGIN_SUCCESS` keeps it cleared), and the `LOGIN_START` opening every
attempt always clears `error`. -/
theorem error_discipline :
    ∀ (c : AuthState × StoreContent) (op : Op),
      ((applyOp c op).1.error = c.1.error ∨ (applyOp c op).1.error = none ∨
        (∃ id email name, op = Op.opLogin true id email name ∧
          (applyOp c op).1.error = some failMsg)) ∧
      (∀ id email name,
        (applyOp c (Op.opLogin false id email name)).1.error = none) ∧
      (authReducer c.1 AuthAction.loginStart).error = none := by
  intro c op
  obtain ⟨s, st⟩ := c
  refine ⟨?_, fun id email name => rfl, rfl⟩
  cases op with
  | opBootstrap => cases st <;> exact Or.inl rfl
  | opLogin tryThrows id email name =>
      cases tryThrows with
      | false => exact Or.inr (Or.inl rfl)
      | true => exact Or.inr (Or.inr ⟨id, email, name, rfl, rfl⟩)
  | opLogout => exact Or.inl rfl

/-- Claim C6: `logout()` is idempotent on the observable configuration
(Session State and Store), and when the configuration is already logged
out (unauthenticated, null user, empty store) a `logout()` changes
nothing at all. -/
theorem logout_idempotent :
    ∀ c : AuthState × StoreContent,
      applyOp (applyOp c Op.opLogout) Op.opLogout = applyOp c Op.opLogout ∧
      (c.1.isAuthenticated = false → c.1.user = Json.jnull →
        c.2 = StoreContent.absent → applyOp c Op.opLogout = c) := by
  intro c
  obtain ⟨⟨u, a, l, e⟩, st⟩ := c
  refine ⟨rfl, fun h1 h2 h3 => ?_⟩
  have ha : a = false := h1
  have hu : u = Json.jnull := h2
  have hs : st = StoreContent.absent := h3
  subst ha; subst hu; subst hs
  rfl

/-- Witness for C6 at the concrete logged-out configuration: a further
`logout()` there is the identity on the configuration. -/
theorem logout_idempotent_witness :
    applyOp ((⟨Json.jnull, false, false, none⟩ : AuthState), StoreContent.absent) Op.opLogout
      = ((⟨Json.jnull, false, false, none⟩ : AuthState), StoreContent.absent) :=
  (logout_idempotent
      ((⟨Json.jnull, false, false, none⟩ : AuthState), StoreContent.absent)).2 rfl rfl rfl
